import Mathlib

/-!
Verification of the `custom-literals` library (`src/custom_literals/__init__.py`,
with `src/custom_literals.py` as an earlier revision of the same module).

The library monkey-patches builtin Python types with data descriptors so that
attribute access on literal values (`(30).s`) invokes a user transform.  The
shallow embedding below models:

* the fixed allow-list of patchable builtin types (`ALLOWED_TARGET_TYPES`),
* the process-wide registry `_HOOKED_INSTANCES : dict[type, list[str]]`,
* the set of descriptors installed on types by `forbiddenfruit.curse`
  (the `attrs` field) and the auxiliary `_NoneTypeDescriptorHack` descriptors
  installed on the metatype `type` (the `metaAttrs` field),
* `_LiteralDescriptor.__init__` / `__get__` / `__set__`,
* `_hook_literal`, `_unhook_literal`, backend selection (`_get_backend`,
  `_select_hook_backend`, `_select_unhook_backend`),
* the front-ends `literal`, `unliteral`, `literally` and the query `is_hooked`.

Host-runtime facts that the code consults are passed in explicitly:

* `nativeDict : PyType → String → Bool` models the `name in type.__dict__`
  test of `_LiteralDescriptor.__init__` (the native attribute table of a
  builtin type is immutable host data);
* the call-site classifier input is the opcode name string
  `dis.opname[frame.f_code.co_code[frame.f_lasti - 2]]` of the instruction
  executed immediately before the attribute access; it is passed to `__get__`
  as a `String` parameter `prevOp`.

Exceptions are modelled with `Except` / `Option PyErr`; the structured
`PyErr` constructors record which Python exception class and message family
the source raises at the corresponding `raise` statement.
-/

namespace CustomLiterals

/-- The allow-listed builtin target types, one constructor per entry of
`ALLOWED_TARGET_TYPES = (bool, int, float, complex, str, bytes, type(None),
type(...), tuple, list, dict, set)`. -/
inductive PyType
  | bool
  | int
  | float
  | complex
  | str
  | bytes
  | noneType
  | ellipsisType
  | tuple
  | list
  | dict
  | set
  deriving DecidableEq, Repr

/-- The list constant `ALLOWED_TARGET_TYPES` itself. -/
def ALLOWED_TARGET_TYPES : List PyType :=
  [PyType.bool, PyType.int, PyType.float, PyType.complex, PyType.str,
   PyType.bytes, PyType.noneType, PyType.ellipsisType, PyType.tuple,
   PyType.list, PyType.dict, PyType.set]

/-- Runtime values of the allow-listed types.  Payloads are carried where a
transform or a test might want to distinguish values; they play no role in
the attribute-lookup logic, which only consults `typeOf`. -/
inductive PyVal
  | vBool (b : Bool)
  | vInt (n : Int)
  | vFloat (payload : Int)
  | vComplex (payload : Int)
  | vStr (s : String)
  | vBytes (s : String)
  | vNone
  | vEllipsis
  | vTuple (payload : Nat)
  | vList (payload : Nat)
  | vDict (payload : Nat)
  | vSet (payload : Nat)
  deriving DecidableEq, Repr

/-- The exact runtime type of a value, i.e. Python's `type(obj)`. -/
def PyVal.typeOf : PyVal → PyType
  | .vBool _ => .bool
  | .vInt _ => .int
  | .vFloat _ => .float
  | .vComplex _ => .complex
  | .vStr _ => .str
  | .vBytes _ => .bytes
  | .vNone => .noneType
  | .vEllipsis => .ellipsisType
  | .vTuple _ => .tuple
  | .vList _ => .list
  | .vDict _ => .dict
  | .vSet _ => .set

/-- The subclass relation between allow-listed types: every type is a
subclass of itself, and `bool` is a subclass of `int` (the only proper
subclass relation among the allow-listed builtins; `object`, which carries
no hooks, is omitted). -/
def isSubclass (a b : PyType) : Bool :=
  a = b || (a = PyType.bool && b = PyType.int)

/-- `isinstance(obj, owner)` restricted to the allow-listed types. -/
def isinstance (v : PyVal) (t : PyType) : Bool :=
  isSubclass v.typeOf t

/-- The method-resolution order of an allow-listed type, restricted to
allow-listed entries: `bool.__mro__ = (bool, int, object)`; every other
allow-listed type is a direct subclass of `object`. -/
def mro : PyType → List PyType
  | .bool => [PyType.bool, PyType.int]
  | t => [t]

/-- A `literal` target as passed by users: either a type or an allow-listed
value (`None` and `...` are passed as values). -/
inductive LiteralTarget
  | ofType (t : PyType)
  | ofValue (v : PyVal)

/-- `_to_type`: `target if isinstance(target, type) else type(target)`. -/
def toType : LiteralTarget → PyType
  | .ofType t => t
  | .ofValue v => v.typeOf

/-- `_ALLOWED_BYTECODE_OPS` from `src/custom_literals/__init__.py`
(lines 111-123): the opcode names accepted by the strict-mode call-site
classifier. -/
def ALLOWED_BYTECODE_OPS : List String :=
  ["LOAD_CONST",
   "BUILD_TUPLE",
   "BUILD_LIST",
   "BUILD_SET",
   "BUILD_MAP",
   "FORMAT_VALUE",
   "LIST_TO_TUPLE",
   "LIST_EXTEND",
   "MAP_UPDATE",
   "SET_UPDATE",
   "DICT_UPDATE"]

/-- The exceptions the module raises, one constructor per `raise` site.
`isAttributeError` below records the Python exception class of each. -/
inductive PyErr
  /-- `AttributeError` "the custom literal ... is already defined" in
  `_LiteralDescriptor.__init__`. -/
  | duplicateSuffix (t : PyType) (name : String)
  /-- `AttributeError` "the name ... is already defined" in
  `_LiteralDescriptor.__init__`. -/
  | nameCollision (t : PyType) (name : String)
  /-- `AttributeError` "the custom literal ... is not defined", raised by
  `__get__` on an exact-type mismatch and by `unliteral` on an absent hook. -/
  | literalNotDefined (owner : PyType) (name : String)
  /-- `TypeError` "can only be invoked on literal values" from strict mode. -/
  | strictNonLiteral (t : PyType) (name : String)
  /-- a bare `raise AttributeError` (from `__set__` of both descriptor
  classes and from `_NoneTypeDescriptorHack.__get__`). -/
  | bareAttributeError
  /-- the host interpreter's `AttributeError` when no attribute is found. -/
  | missingAttribute
  /-- `ValueError` "unsupported backend" from `_select_hook_backend` /
  `_select_unhook_backend`. -/
  | unsupportedBackend (backend : String)
  /-- an arbitrary exception raised by the body of a `with literally(...)`
  block. -/
  | userException
  deriving DecidableEq, Repr

/-- Whether the raised exception is (a subclass of) `AttributeError`. -/
def PyErr.isAttributeError : PyErr → Bool
  | .duplicateSuffix _ _ => true
  | .nameCollision _ _ => true
  | .literalNotDefined _ _ => true
  | .bareAttributeError => true
  | .missingAttribute => true
  | .strictNonLiteral _ _ => false
  | .unsupportedBackend _ => false
  | .userException => false

/-- The fields of a `_LiteralDescriptor` instance (set at the end of
`__init__` after its two validity checks, which are modelled separately by
`mkLiteralDescriptor`). -/
structure LiteralDescriptor where
  type : PyType
  fn : PyVal → PyVal
  name : String
  strict : Bool

/-- The mutable interpreter-wide state the module manipulates:

* `registry` models `_HOOKED_INSTANCES : dict[type, list[str]]` (total over
  `PyType`, matching the dict comprehension that seeds every allow-listed
  type with `[]`);
* `attrs t n` models the descriptor installed under name `n` into the type
  dict of `t` by `forbiddenfruit.curse`, if any;
* `metaAttrs n` models the `_NoneTypeDescriptorHack` installed on the
  metatype `type` under name `n`, if any, storing the hack's `self.name`. -/
structure HookState where
  registry : PyType → List String
  attrs : PyType → String → Option LiteralDescriptor
  metaAttrs : String → Option String

/-- The state at interpreter start:
`_HOOKED_INSTANCES = {type: [] for type in ALLOWED_TARGET_TYPES}`, and no
patched attributes anywhere. -/
def initState : HookState :=
  { registry := fun _ => []
    attrs := fun _ _ => none
    metaAttrs := fun _ => none }

/-- `is_hooked(target, name)`: `name in _HOOKED_INSTANCES[_to_type(target)]`. -/
def is_hooked (s : HookState) (target : LiteralTarget) (name : String) : Bool :=
  decide (name ∈ s.registry (toType target))

/-- The validity checks of `_LiteralDescriptor.__init__` (lines 133-143):
fails on a duplicate suffix (`name in _HOOKED_INSTANCES[type]`) or on a
collision with a native attribute (`name in type.__dict__`, supplied by the
host-runtime parameter `nativeDict`); otherwise produces the descriptor. -/
def mkLiteralDescriptor (nativeDict : PyType → String → Bool) (s : HookState)
    (t : PyType) (fn : PyVal → PyVal) (name : String) (strict : Bool) :
    Except PyErr LiteralDescriptor :=
  if name ∈ s.registry t then
    Except.error (PyErr.duplicateSuffix t name)
  else if nativeDict t name then
    Except.error (PyErr.nameCollision t name)
  else
    Except.ok { type := t, fn := fn, name := name, strict := strict }

/-- `_LiteralDescriptor.__get__(self, obj, owner)` (lines 145-202).
`prevOp` is the opcode name of the instruction executed immediately before
the attribute access in the calling frame
(`dis.opname[frame.f_code.co_code[frame.f_lasti - 2]]`); it is only
consulted when `self.strict` holds.  The two `RuntimeError("unreachable")`
guards (a missing current frame or caller frame) cannot fire under the
modelled CPython runtime and are omitted. -/
def descriptorGet (d : LiteralDescriptor) (obj : PyVal) (owner : PyType)
    (prevOp : String) : Except PyErr PyVal :=
  if ¬ isinstance obj owner then
    Except.ok PyVal.vNone
  else if obj.typeOf ≠ d.type then
    Except.error (PyErr.literalNotDefined owner d.name)
  else if d.strict ∧ prevOp ∉ ALLOWED_BYTECODE_OPS then
    Except.error (PyErr.strictNonLiteral d.type d.name)
  else
    Except.ok (d.fn obj)

/-- `_LiteralDescriptor.__set__` (lines 207-208): unconditionally
`raise AttributeError`. -/
def descriptorSet (_d : LiteralDescriptor) (_obj _value : PyVal) :
    Except PyErr Unit :=
  Except.error PyErr.bareAttributeError

/-- `_get_backend(override)`: the override if given, otherwise the
`CUSTOM_LITERALS_BACKEND` environment variable (modelled as an explicit
`Option String`), otherwise `_DEFAULT_BACKEND = "forbiddenfruit"`. -/
def getBackend (override envVar : Option String) : String :=
  match override with
  | some b => b
  | none => envVar.getD "forbiddenfruit"

/-- `_hook_literal(cls, name, descriptor, backend)` (lines 227-233).
The source first appends `name` to `_HOOKED_INSTANCES[cls]`, then calls
`_select_hook_backend(backend)` — which raises `ValueError` for any backend
other than `"forbiddenfruit"`, leaving the registry already mutated — and
only then installs the descriptor (plus the `_NoneTypeDescriptorHack` on the
metatype when `cls` is `NoneType`). -/
def hookLiteral (cls : PyType) (name : String) (d : LiteralDescriptor)
    (backend : String) (s : HookState) : HookState × Option PyErr :=
  let reg1 : PyType → List String :=
    fun u => if u = cls then s.registry u ++ [name] else s.registry u
  if backend = "forbiddenfruit" then
    ({ registry := reg1
       attrs := fun u m =>
         if u = cls ∧ m = name then some d else s.attrs u m
       metaAttrs := fun m =>
         if cls = PyType.noneType ∧ m = name then some name
         else s.metaAttrs m },
     none)
  else
    ({ s with registry := reg1 }, some (PyErr.unsupportedBackend backend))

/-- `_unhook_literal(cls, name, backend)` (lines 235-241).  The source
resolves the backend first (raising `ValueError` before any mutation for an
unsupported backend), then reverses the patch (and the metatype hack when
`cls` is `NoneType`) and removes the first occurrence of `name` from
`_HOOKED_INSTANCES[cls]` (`list.remove`, modelled by `List.erase`). -/
def unhookLiteral (cls : PyType) (name : String) (backend : String)
    (s : HookState) : HookState × Option PyErr :=
  if backend = "forbiddenfruit" then
    ({ registry := fun u =>
         if u = cls then (s.registry u).erase name else s.registry u
       attrs := fun u m =>
         if u = cls ∧ m = name then none else s.attrs u m
       metaAttrs := fun m =>
         if cls = PyType.noneType ∧ m = name then none
         else s.metaAttrs m },
     none)
  else
    (s, some (PyErr.unsupportedBackend backend))

/-- The `inner` loop of the `literal` decorator (lines 322-329) applied to a
transform: for each target in order, build the descriptor (whose `__init__`
may raise) and hook it.  An exception aborts the loop, leaving the targets
already processed hooked — the source has no rollback.  The suffix name is
passed explicitly (the source falls back to `fn.__name__` when the `name`
keyword is `None`; the claims under verification always name the suffix). -/
def literalRegister (nativeDict : PyType → String → Bool) (backend : String)
    (targets : List LiteralTarget) (name : String) (fn : PyVal → PyVal)
    (strict : Bool) (s : HookState) : HookState × Option PyErr :=
  match targets with
  | [] => (s, none)
  | target :: rest =>
    match mkLiteralDescriptor nativeDict s (toType target) fn name strict with
    | Except.error e => (s, some e)
    | Except.ok d =>
      match hookLiteral (toType target) name d backend s with
      | (s1, some e) => (s1, some e)
      | (s1, none) => literalRegister nativeDict backend rest name fn strict s1

/-- `unliteral(target, name)` (lines 405-444): raises `AttributeError` if the
suffix is not hooked on `_to_type(target)`, otherwise delegates to
`_unhook_literal` with the configured backend. -/
def unliteral (target : LiteralTarget) (name : String) (backend : String)
    (s : HookState) : HookState × Option PyErr :=
  if name ∈ s.registry (toType target) then
    unhookLiteral (toType target) name backend s
  else
    (s, some (PyErr.literalNotDefined (toType target) name))

/-- The data-descriptor lookup performed by `type(obj).__getattribute__` for
a patched suffix name: the first type in `type(obj).__mro__` whose type dict
holds an installed `_LiteralDescriptor`.  (Native attributes never occur
under a hooked name on the hooked type itself — `__init__` forbids the
collision — and the claims only concern hooked names, so the lookup is
restricted to installed descriptors.) -/
def lookupHooked (s : HookState) (t : PyType) (name : String) :
    Option LiteralDescriptor :=
  (mro t).findSome? (fun u => s.attrs u name)

/-- Reading attribute `name` on an instance `obj`: CPython finds the data
descriptor through `type(obj).__mro__` and invokes
`descriptor.__get__(obj, type(obj))`; if no descriptor is installed the
access raises the host `AttributeError`. -/
def instanceGetAttr (s : HookState) (obj : PyVal) (name : String)
    (prevOp : String) : Except PyErr PyVal :=
  match lookupHooked s obj.typeOf name with
  | some d => descriptorGet d obj obj.typeOf prevOp
  | none => Except.error PyErr.missingAttribute

/-- The full state-level read of a suffix attribute.  The body of
`_LiteralDescriptor.__get__` never writes to `_HOOKED_INSTANCES` nor calls
`curse`/`reverse`, so the interpreter state is returned unchanged. -/
def readSuffix (s : HookState) (obj : PyVal) (name : String)
    (prevOp : String) : Except PyErr PyVal × HookState :=
  (instanceGetAttr s obj name prevOp, s)

/-- Reading attribute `name` on a type object `t` itself.  The metatype
`type` is searched first for a data descriptor: when a hook on `NoneType`
has installed a `_NoneTypeDescriptorHack` under `name`, its `__get__(t,
type)` runs `if self.name not in _HOOKED_INSTANCES[obj]: raise
AttributeError` (else it returns `None` implicitly).  Otherwise the
descriptor found through `t.__mro__` runs with `__get__(None, t)` — CPython
passes the literal `None` object as the instance argument for class
access. -/
def classGetAttr (s : HookState) (t : PyType) (name : String)
    (prevOp : String) : Except PyErr PyVal :=
  match s.metaAttrs name with
  | some hackName =>
    if hackName ∈ s.registry t then Except.ok PyVal.vNone
    else Except.error PyErr.bareAttributeError
  | none =>
    match lookupHooked s t name with
    | some d => descriptorGet d PyVal.vNone t prevOp
    | none => Except.error PyErr.missingAttribute

/-- The inner loop of `literally`'s entry for one target type: hook every
`(name, fn)` keyword pair in order; an exception aborts the loop. -/
def hookPairsForType (nativeDict : PyType → String → Bool) (backend : String)
    (t : PyType) (fns : List (String × (PyVal → PyVal))) (strict : Bool)
    (s : HookState) : HookState × Option PyErr :=
  match fns with
  | [] => (s, none)
  | (name, fn) :: rest =>
    match mkLiteralDescriptor nativeDict s t fn name strict with
    | Except.error e => (s, some e)
    | Except.ok d =>
      match hookLiteral t name d backend s with
      | (s1, some e) => (s1, some e)
      | (s1, none) => hookPairsForType nativeDict backend t rest strict s1

/-- The entry loops of `literally` (lines 488-492): for each target type,
hook every keyword pair. -/
def hookAllPairs (nativeDict : PyType → String → Bool) (backend : String)
    (types : List PyType) (fns : List (String × (PyVal → PyVal)))
    (strict : Bool) (s : HookState) : HookState × Option PyErr :=
  match types with
  | [] => (s, none)
  | t :: rest =>
    match hookPairsForType nativeDict backend t fns strict s with
    | (s1, some e) => (s1, some e)
    | (s1, none) => hookAllPairs nativeDict backend rest fns strict s1

/-- The exit loops of `literally` (lines 494-496): for each target type,
unhook every keyword name. -/
def unhookNamesForType (backend : String) (t : PyType) (names : List String)
    (s : HookState) : HookState × Option PyErr :=
  match names with
  | [] => (s, none)
  | name :: rest =>
    match unhookLiteral t name backend s with
    | (s1, some e) => (s1, some e)
    | (s1, none) => unhookNamesForType backend t rest s1

/-- For each target type, unhook every keyword name. -/
def unhookAllPairs (backend : String) (types : List PyType)
    (names : List String) (s : HookState) : HookState × Option PyErr :=
  match types with
  | [] => (s, none)
  | t :: rest =>
    match unhookNamesForType backend t names s with
    | (s1, some e) => (s1, some e)
    | (s1, none) => unhookAllPairs backend rest names s1

/-- How the body of a `with literally(...)` block finishes. -/
inductive BodyOutcome
  | completes
  | raises

/-- One full run of `with literally(*targets, **fns): body` (lines 446-496).
`literally` is a `@contextlib.contextmanager` generator whose body is

    hook loops; yield; unhook loops

with no `try`/`finally` around the `yield`.  Under the generator protocol:

* if the entry loops raise, the partial hooks remain and the exception
  propagates (the `with` block is never entered);
* if the body completes, `__exit__` resumes the generator and the unhook
  loops run;
* if the body raises, `__exit__` throws the exception into the generator at
  the `yield`; with no enclosing `try`, the exception propagates out of the
  generator immediately and the unhook loops after the `yield` never run,
  so every hook installed on entry stays installed. -/
def literallyRun (nativeDict : PyType → String → Bool) (backend : String)
    (targets : List LiteralTarget) (fns : List (String × (PyVal → PyVal)))
    (strict : Bool) (body : BodyOutcome) (s : HookState) :
    HookState × Option PyErr :=
  let types := targets.map toType
  match hookAllPairs nativeDict backend types fns strict s with
  | (s1, some e) => (s1, some e)
  | (s1, none) =>
    match body with
    | BodyOutcome.completes => unhookAllPairs backend types (fns.map Prod.fst) s1
    | BodyOutcome.raises => (s1, some PyErr.userException)

/-! ### Sample data for concrete evaluations -/

/-- A sample transform: the identity function on values. -/
def idFn : PyVal → PyVal := fun v => v

/-- A host type-dict model in which no native attribute collides with any
suffix name under consideration. -/
def noNative : PyType → String → Bool := fun _ _ => false

/-- A host type-dict model recording that `int.__dict__` natively contains
`"bit_length"` (as CPython's does). -/
def sampleNative : PyType → String → Bool :=
  fun t n => t = PyType.int && n = "bit_length"

/-- Sample state: the non-strict suffix `"s"` hooked on `int`. -/
def sIntHook : HookState :=
  (hookLiteral PyType.int "s"
    { type := PyType.int, fn := idFn, name := "s", strict := false }
    "forbiddenfruit" initState).1

/-- Sample state: the strict suffix `"s"` hooked on `int`. -/
def sIntStrict : HookState :=
  (hookLiteral PyType.int "s"
    { type := PyType.int, fn := idFn, name := "s", strict := true }
    "forbiddenfruit" initState).1

/-- A sample run of `with literally(int, s=idFn)` whose body finishes with
the given outcome, starting from the pristine interpreter state. -/
def literallyIntRun (body : BodyOutcome) : HookState × Option PyErr :=
  literallyRun noNative "forbiddenfruit" [LiteralTarget.ofType PyType.int]
    [("s", idFn)] false body initState

/-! ### Claim theorems -/

/-- Claim C8: for every hooked `(type, name)` pair, assigning to the hooked
suffix attribute on any instance is rejected with an `AttributeError`
(`_LiteralDescriptor.__set__` raises unconditionally), and a successful
suffix read leaves the interpreter state — registry and patched attribute
tables — unchanged, its only effect being the invocation of the
transform. -/
theorem suffix_write_rejected_and_read_state_pure
    (d : LiteralDescriptor) (obj v : PyVal) (s : HookState)
    (name prevOp : String) :
    descriptorSet d obj v = Except.error PyErr.bareAttributeError ∧
      (readSuffix s obj name prevOp).2 = s :=
  ⟨rfl, rfl⟩

/-- Claim C1 (failing input): running `with literally(int, s=idFn)` whose
body raises leaves the suffix hooked — `is_hooked` still answers `true`
and the descriptor is still installed — because the generator in
`literally` has no `try`/`finally` around its `yield`, so the cleanup loops
are skipped when the body's exception is thrown into the generator.  By
contrast, a body that completes normally does get the suffix unhooked. -/
theorem literally_exceptional_exit_keeps_hooks :
    (literallyIntRun BodyOutcome.raises).2 = some PyErr.userException ∧
      is_hooked (literallyIntRun BodyOutcome.raises).1
        (LiteralTarget.ofType PyType.int) "s" = true ∧
      ((literallyIntRun BodyOutcome.raises).1.attrs PyType.int "s").isSome
        = true ∧
      is_hooked (literallyIntRun BodyOutcome.completes).1
        (LiteralTarget.ofType PyType.int) "s" = false ∧
      ((literallyIntRun BodyOutcome.completes).1.attrs PyType.int "s").isSome
        = false :=
  ⟨rfl, rfl, rfl, rfl, rfl⟩

/-- Claim C2 (counterexample): with `"s"` hooked on `int` only, reading the
suffix on the boolean value `True` does not invoke the transform; the
descriptor is found through `bool`'s method-resolution order, but the
exact-type check `type(obj) is not self.type` rejects it with the
"literal not defined" `AttributeError` (exactly what the repository's own
`test_int_bool` asserts), contradicting the claim that boolean values
successfully invoke hooks placed on the integer type. -/
theorem bool_value_rejected_by_int_hook :
    instanceGetAttr sIntHook (PyVal.vBool true) "s" "LOAD_CONST" =
      Except.error (PyErr.literalNotDefined PyType.bool "s") :=
  rfl

/-- Claim C2 (amended): whenever the attribute lookup for a hooked suffix
finds a descriptor whose recorded type differs from the exact runtime type
of the instance — in particular for boolean values reading a hook placed on
`int`, the only case where a descriptor is inherited across allow-listed
types — the access fails with the "literal not defined" `AttributeError`;
there is no exception for the numeric tower. -/
theorem exact_type_mismatch_raises (s : HookState) (obj : PyVal)
    (name prevOp : String) (d : LiteralDescriptor)
    (hfind : lookupHooked s obj.typeOf name = some d)
    (hne : obj.typeOf ≠ d.type) :
    instanceGetAttr s obj name prevOp =
      Except.error (PyErr.literalNotDefined obj.typeOf d.name) := by
  unfold instanceGetAttr
  rw [hfind]
  unfold descriptorGet
  have h1 : isinstance obj obj.typeOf = true := by
    simp [isinstance, isSubclass]
  simp [h1, hne]

/-- Witness for the amended claim C2, at the boolean value `False` reading
the `int` hook of `sIntHook`. -/
theorem exact_type_mismatch_raises_witness :
    instanceGetAttr sIntHook (PyVal.vBool false) "s" "LOAD_CONST" =
      Except.error (PyErr.literalNotDefined PyType.bool "s") :=
  exact_type_mismatch_raises sIntHook (PyVal.vBool false) "s" "LOAD_CONST"
    { type := PyType.int, fn := idFn, name := "s", strict := false }
    rfl (by decide)

/-- Claim C9: with a configured backend other than `"forbiddenfruit"`
(whether from the `CUSTOM_LITERALS_BACKEND` environment variable or an
override), `_hook_literal` raises the unsupported-backend `ValueError` only
after appending the suffix name to `_HOOKED_INSTANCES`, so afterwards
`is_hooked` answers `true` while no descriptor was installed on the type or
the metatype. -/
theorem bad_backend_hooks_registry_only (override envVar : Option String)
    (s : HookState) (t : PyType) (name : String) (d : LiteralDescriptor)
    (h : getBackend override envVar ≠ "forbiddenfruit") :
    (hookLiteral t name d (getBackend override envVar) s).2 =
        some (PyErr.unsupportedBackend (getBackend override envVar)) ∧
      is_hooked (hookLiteral t name d (getBackend override envVar) s).1
        (LiteralTarget.ofType t) name = true ∧
      (hookLiteral t name d (getBackend override envVar) s).1.attrs =
        s.attrs ∧
      (hookLiteral t name d (getBackend override envVar) s).1.metaAttrs =
        s.metaAttrs := by
  unfold hookLiteral
  rw [if_neg h]
  refine ⟨rfl, ?_, rfl, rfl⟩
  simp [is_hooked, toType]

/-- Witness for claim C9: the override backend `"cursed"` on a hook of
`"s"` on `int` from the pristine state. -/
theorem bad_backend_hooks_registry_only_witness :
    (hookLiteral PyType.int "s"
        { type := PyType.int, fn := idFn, name := "s", strict := false }
        (getBackend (some "cursed") none) initState).2 =
        some (PyErr.unsupportedBackend (getBackend (some "cursed") none)) ∧
      is_hooked (hookLiteral PyType.int "s"
        { type := PyType.int, fn := idFn, name := "s", strict := false }
        (getBackend (some "cursed") none) initState).1
        (LiteralTarget.ofType PyType.int) "s" = true ∧
      (hookLiteral PyType.int "s"
        { type := PyType.int, fn := idFn, name := "s", strict := false }
        (getBackend (some "cursed") none) initState).1.attrs =
        initState.attrs ∧
      (hookLiteral PyType.int "s"
        { type := PyType.int, fn := idFn, name := "s", strict := false }
        (getBackend (some "cursed") none) initState).1.metaAttrs =
        initState.metaAttrs :=
  bad_backend_hooks_registry_only (some "cursed") none initState PyType.int "s"
    { type := PyType.int, fn := idFn, name := "s", strict := false }
    (by decide)

/-- Claim C3: for a hook registered with `strict=True`, an attribute access
whose immediately preceding call-site instruction is in
`_ALLOWED_BYTECODE_OPS` (loading a constant, building a tuple/list/set/map,
string formatting, or the collection-update family) invokes the transform
and returns its result, while any other preceding instruction makes the
access fail with the strict-mode `TypeError`; in both cases the interpreter
state (registry and patched attribute tables) is unchanged. -/
theorem strict_access_classified (s : HookState) (obj : PyVal)
    (name prevOp : String) (d : LiteralDescriptor)
    (hfind : lookupHooked s obj.typeOf name = some d)
    (hty : d.type = obj.typeOf) (hstrict : d.strict = true) :
    readSuffix s obj name prevOp =
      (if prevOp ∈ ALLOWED_BYTECODE_OPS then Except.ok (d.fn obj)
       else Except.error (PyErr.strictNonLiteral d.type d.name), s) := by
  unfold readSuffix instanceGetAttr
  rw [hfind]
  unfold descriptorGet
  have h1 : isinstance obj obj.typeOf = true := by
    simp [isinstance, isSubclass]
  have h2 : ¬ (obj.typeOf ≠ d.type) := by
    rw [hty]
    exact fun hc => hc rfl
  by_cases hop : prevOp ∈ ALLOWED_BYTECODE_OPS <;>
    simp [h1, h2, hstrict, hop]

/-- Witness for claim C3: with the strict `"s"` hook on `int`, reading the
suffix after a `LOAD_CONST` invokes the transform, and reading it after a
`LOAD_FAST` (a variable load) raises the strict-mode `TypeError`, the state
being returned unchanged both times. -/
theorem strict_access_classified_witness :
    readSuffix sIntStrict (PyVal.vInt 30) "s" "LOAD_CONST" =
        (Except.ok (idFn (PyVal.vInt 30)), sIntStrict) ∧
      readSuffix sIntStrict (PyVal.vInt 30) "s" "LOAD_FAST" =
        (Except.error (PyErr.strictNonLiteral PyType.int "s"), sIntStrict) := by
  constructor
  · rw [strict_access_classified sIntStrict (PyVal.vInt 30) "s" "LOAD_CONST"
      { type := PyType.int, fn := idFn, name := "s", strict := true }
      rfl rfl rfl, if_pos (by decide)]
  · rw [strict_access_classified sIntStrict (PyVal.vInt 30) "s" "LOAD_FAST"
      { type := PyType.int, fn := idFn, name := "s", strict := true }
      rfl rfl rfl, if_neg (by decide)]

/-- Claim C10: for a hooked `(type, name)` pair on a type other than
`NoneType`, reading the suffix on the type object itself neither invokes
the transform nor raises: class access passes no instance
(`__get__(None, T)`), the `isinstance` check fails, and the descriptor
returns `None` — likewise through the metatype hack when one is installed
under that name. -/
theorem class_access_returns_none (s : HookState) (t : PyType)
    (name prevOp : String) (d : LiteralDescriptor)
    (hattr : s.attrs t name = some d)
    (hreg : name ∈ s.registry t)
    (ht : t ≠ PyType.noneType)
    (hmeta : s.metaAttrs name = none ∨ s.metaAttrs name = some name) :
    classGetAttr s t name prevOp = Except.ok PyVal.vNone := by
  have hlook : lookupHooked s t name = some d := by
    unfold lookupHooked
    cases t <;> simp_all [mro]
  have hinst : isinstance PyVal.vNone t = false := by
    simp [isinstance, isSubclass, PyVal.typeOf, Ne.symm ht]
  unfold classGetAttr
  rcases hmeta with hm | hm
  · rw [hm, hlook]
    simp [descriptorGet, hinst]
  · rw [hm]
    simp [hreg]

/-- Witness for claim C10: class access `int.s` on the sample state with
`"s"` hooked on `int` returns `None` (after a variable-load instruction,
showing strictness is never consulted). -/
theorem class_access_returns_none_witness :
    classGetAttr sIntHook PyType.int "s" "LOAD_FAST" =
      Except.ok PyVal.vNone :=
  class_access_returns_none sIntHook PyType.int "s" "LOAD_FAST"
    { type := PyType.int, fn := idFn, name := "s", strict := false }
    rfl (by decide) (by decide) (Or.inl rfl)

/-- Claim C4: registering a suffix fails with an `AttributeError` when the
name is already hooked on the target type (duplicate suffix) or already a
native attribute of the type's own dict (name collision), and in either
case the whole interpreter state — in particular the registry entry for
that `(type, name)` pair — is left unchanged. -/
theorem registration_conflict_leaves_state
    (nativeDict : PyType → String → Bool) (backend : String) (t : PyType)
    (name : String) (fn : PyVal → PyVal) (strict : Bool) (s : HookState) :
    (name ∈ s.registry t →
      literalRegister nativeDict backend [LiteralTarget.ofType t] name fn
          strict s =
        (s, some (PyErr.duplicateSuffix t name))) ∧
      (name ∉ s.registry t → nativeDict t name = true →
        literalRegister nativeDict backend [LiteralTarget.ofType t] name fn
            strict s =
          (s, some (PyErr.nameCollision t name))) := by
  constructor
  · intro h
    simp [literalRegister, mkLiteralDescriptor, toType, h]
  · intro h hn
    simp [literalRegister, mkLiteralDescriptor, toType, h, hn]

/-- Witness for claim C4: a duplicate registration of `"s"` on the already
hooked `sIntHook` state, and a registration of `"bit_length"` on `int`
colliding with the native attribute, both fail and leave the state
untouched. -/
theorem registration_conflict_leaves_state_witness :
    (literalRegister noNative "forbiddenfruit"
        [LiteralTarget.ofType PyType.int] "s" idFn false sIntHook =
      (sIntHook, some (PyErr.duplicateSuffix PyType.int "s"))) ∧
      (literalRegister sampleNative "forbiddenfruit"
          [LiteralTarget.ofType PyType.int] "bit_length" idFn false
          initState =
        (initState, some (PyErr.nameCollision PyType.int "bit_length"))) :=
  ⟨(registration_conflict_leaves_state noNative "forbiddenfruit" PyType.int
      "s" idFn false sIntHook).1 (by decide),
   (registration_conflict_leaves_state sampleNative "forbiddenfruit"
      PyType.int "bit_length" idFn false initState).2 (by decide) (by decide)⟩

/-! ### Helper lemmas shared by the remaining claims -/

/-- Two states with equal fields are equal. -/
lemma HookState.eq_of_fields {a b : HookState} (h1 : a.registry = b.registry)
    (h2 : a.attrs = b.attrs) (h3 : a.metaAttrs = b.metaAttrs) : a = b := by
  cases a
  cases b
  simp_all

/-- A successful single-target registration, written out as the resulting
state: the name is appended to the registry of the target, the descriptor
is installed, and, when the target is `NoneType`, the metatype hack is
installed as well. -/
lemma literalRegister_single_ok (nativeDict : PyType → String → Bool)
    (t : PyType) (name : String) (fn : PyVal → PyVal) (strict : Bool)
    (s : HookState)
    (hreg : name ∉ s.registry t) (hnat : nativeDict t name = false) :
    literalRegister nativeDict "forbiddenfruit" [LiteralTarget.ofType t]
        name fn strict s =
      ({ registry := fun u =>
           if u = t then s.registry u ++ [name] else s.registry u
         attrs := fun u m =>
           if u = t ∧ m = name then
             some { type := t, fn := fn, name := name, strict := strict }
           else s.attrs u m
         metaAttrs := fun m =>
           if t = PyType.noneType ∧ m = name then some name
           else s.metaAttrs m }, none) := by
  simp [literalRegister, mkLiteralDescriptor, toType, hreg, hnat, hookLiteral]

/-- A successful removal of a hooked suffix, written out as the resulting
state. -/
lemma unliteral_hooked_ok (t : PyType) (name : String) (s : HookState)
    (h : name ∈ s.registry t) :
    unliteral (LiteralTarget.ofType t) name "forbiddenfruit" s =
      ({ registry := fun u =>
           if u = t then (s.registry u).erase name else s.registry u
         attrs := fun u m =>
           if u = t ∧ m = name then none else s.attrs u m
         metaAttrs := fun m =>
           if t = PyType.noneType ∧ m = name then none
           else s.metaAttrs m }, none) := by
  simp [unliteral, toType, h, unhookLiteral]

/-- Erasing a freshly appended element recovers the original list. -/
lemma erase_append_singleton (l : List String) (a : String) (h : a ∉ l) :
    (l ++ [a]).erase a = l := by
  rw [List.erase_append_right _ h, List.erase_cons_head, List.append_nil]

/-- Claim C5: for every allow-listed type `T` and name `n`, after a
successful hook of `(T, n)` the query `is_hooked T n` answers `true`;
`unliteral T n` on a state where `(T, n)` is not hooked fails with the
"not defined" `AttributeError` and leaves the state untouched; and
`unliteral T n` on the hooked state succeeds, removes the registry entry
(so `is_hooked` answers `false`) and uninstalls the descriptor. -/
theorem hook_is_hooked_unhook_roundtrip
    (nativeDict : PyType → String → Bool) (t : PyType) (name : String)
    (fn : PyVal → PyVal) (strict : Bool) (s hooked : HookState)
    (_hT : t ∈ ALLOWED_TARGET_TYPES)
    (hreg : name ∉ s.registry t) (hnat : nativeDict t name = false)
    (hdef : hooked = (literalRegister nativeDict "forbiddenfruit"
      [LiteralTarget.ofType t] name fn strict s).1) :
    (literalRegister nativeDict "forbiddenfruit" [LiteralTarget.ofType t]
        name fn strict s).2 = none ∧
      is_hooked hooked (LiteralTarget.ofType t) name = true ∧
      unliteral (LiteralTarget.ofType t) name "forbiddenfruit" s =
        (s, some (PyErr.literalNotDefined t name)) ∧
      (unliteral (LiteralTarget.ofType t) name "forbiddenfruit" hooked).2 =
        none ∧
      is_hooked
        (unliteral (LiteralTarget.ofType t) name "forbiddenfruit" hooked).1
        (LiteralTarget.ofType t) name = false ∧
      (unliteral (LiteralTarget.ofType t) name "forbiddenfruit"
        hooked).1.attrs t name = none := by
  have hsingle := literalRegister_single_ok nativeDict t name fn strict s
    hreg hnat
  rw [hsingle] at hdef
  subst hdef
  have hu := unliteral_hooked_ok t name
    { registry := fun u =>
        if u = t then s.registry u ++ [name] else s.registry u
      attrs := fun u m =>
        if u = t ∧ m = name then
          some { type := t, fn := fn, name := name, strict := strict }
        else s.attrs u m
      metaAttrs := fun m =>
        if t = PyType.noneType ∧ m = name then some name
        else s.metaAttrs m } (by simp)
  refine ⟨by rw [hsingle], by simp [is_hooked, toType],
    by simp [unliteral, toType, hreg], by rw [hu], ?_, by rw [hu]; simp⟩
  rw [hu]
  simp [is_hooked, toType, erase_append_singleton _ _ hreg, hreg]

/-- Witness for claim C5 at `t = str`, `name = "u"`, starting from the
pristine state. -/
theorem hook_is_hooked_unhook_roundtrip_witness :
    (literalRegister noNative "forbiddenfruit" [LiteralTarget.ofType PyType.str]
        "u" idFn false initState).2 = none ∧
      is_hooked (literalRegister noNative "forbiddenfruit"
          [LiteralTarget.ofType PyType.str] "u" idFn false initState).1
        (LiteralTarget.ofType PyType.str) "u" = true ∧
      unliteral (LiteralTarget.ofType PyType.str) "u" "forbiddenfruit"
          initState =
        (initState, some (PyErr.literalNotDefined PyType.str "u")) ∧
      (unliteral (LiteralTarget.ofType PyType.str) "u" "forbiddenfruit"
        (literalRegister noNative "forbiddenfruit"
          [LiteralTarget.ofType PyType.str] "u" idFn false initState).1).2 =
        none ∧
      is_hooked (unliteral (LiteralTarget.ofType PyType.str) "u"
          "forbiddenfruit"
          (literalRegister noNative "forbiddenfruit"
            [LiteralTarget.ofType PyType.str] "u" idFn false initState).1).1
        (LiteralTarget.ofType PyType.str) "u" = false ∧
      (unliteral (LiteralTarget.ofType PyType.str) "u" "forbiddenfruit"
        (literalRegister noNative "forbiddenfruit"
          [LiteralTarget.ofType PyType.str] "u" idFn false
          initState).1).1.attrs PyType.str "u" = none :=
  hook_is_hooked_unhook_roundtrip noNative PyType.str "u" idFn false
    initState _ (by decide) (by decide) (by decide) rfl

/-- One successful step of the `literal` registration loop: the head target
is hooked and the loop continues on the updated state. -/
lemma literalRegister_cons_ok (nativeDict : PyType → String → Bool)
    (t : PyType) (rest : List LiteralTarget) (name : String)
    (fn : PyVal → PyVal) (strict : Bool) (s : HookState)
    (hreg : name ∉ s.registry t) (hnat : nativeDict t name = false) :
    literalRegister nativeDict "forbiddenfruit"
        (LiteralTarget.ofType t :: rest) name fn strict s =
      literalRegister nativeDict "forbiddenfruit" rest name fn strict
        { registry := fun u =>
            if u = t then s.registry u ++ [name] else s.registry u
          attrs := fun u m =>
            if u = t ∧ m = name then
              some { type := t, fn := fn, name := name, strict := strict }
            else s.attrs u m
          metaAttrs := fun m =>
            if t = PyType.noneType ∧ m = name then some name
            else s.metaAttrs m } := by
  simp [literalRegister, mkLiteralDescriptor, toType, hreg, hnat, hookLiteral]

/-- A registration step that hits a native-name collision aborts the loop
with the state unchanged from the start of that step. -/
lemma literalRegister_cons_collision (nativeDict : PyType → String → Bool)
    (t : PyType) (rest : List LiteralTarget) (name : String)
    (fn : PyVal → PyVal) (strict : Bool) (s : HookState)
    (hreg : name ∉ s.registry t) (hnat : nativeDict t name = true) :
    literalRegister nativeDict "forbiddenfruit"
        (LiteralTarget.ofType t :: rest) name fn strict s =
      (s, some (PyErr.nameCollision t name)) := by
  simp [literalRegister, mkLiteralDescriptor, toType, hreg, hnat]

/-- Claim C6: a single `literal` registration call over several target
types is not transactional.  When the second of three targets fails (here
with a native-name collision), the first target remains hooked, while the
failing target and the target after it are left unhooked and untouched. -/
theorem multi_target_registration_not_transactional
    (nativeDict : PyType → String → Bool) (t1 t2 t3 : PyType) (name : String)
    (fn : PyVal → PyVal) (strict : Bool) (s : HookState)
    (r : HookState × Option PyErr)
    (h1r : name ∉ s.registry t1) (h1n : nativeDict t1 name = false)
    (h2r : name ∉ s.registry t2) (h2n : nativeDict t2 name = true)
    (h12 : t1 ≠ t2) (h13 : t1 ≠ t3)
    (hr : r = literalRegister nativeDict "forbiddenfruit"
      [LiteralTarget.ofType t1, LiteralTarget.ofType t2,
       LiteralTarget.ofType t3] name fn strict s) :
    r.2 = some (PyErr.nameCollision t2 name) ∧
      is_hooked r.1 (LiteralTarget.ofType t1) name = true ∧
      is_hooked r.1 (LiteralTarget.ofType t2) name = false ∧
      is_hooked r.1 (LiteralTarget.ofType t3) name =
        is_hooked s (LiteralTarget.ofType t3) name ∧
      r.1.attrs t2 name = s.attrs t2 name ∧
      r.1.attrs t3 name = s.attrs t3 name := by
  have h21 : ¬ (t2 = t1) := fun hc => h12 hc.symm
  have h31 : ¬ (t3 = t1) := fun hc => h13 hc.symm
  rw [literalRegister_cons_ok nativeDict t1
    [LiteralTarget.ofType t2, LiteralTarget.ofType t3] name fn strict s
    h1r h1n] at hr
  rw [literalRegister_cons_collision nativeDict t2 [LiteralTarget.ofType t3]
    name fn strict _ (by simpa [h21] using h2r) h2n] at hr
  rw [hr]
  refine ⟨rfl, ?_, ?_, ?_, ?_, ?_⟩
  · simp [is_hooked, toType]
  · simp [is_hooked, toType, h21, h2r]
  · simp [is_hooked, toType, h31]
  · simp [h21]
  · simp [h31]

/-- Witness for claim C6: registering `"bit_length"` on `float`, `int` and
`str` in one call: the collision with `int`'s native attribute aborts the
call after `float` was hooked, leaving `int` and `str` unhooked. -/
theorem multi_target_registration_not_transactional_witness :
    (literalRegister sampleNative "forbiddenfruit"
        [LiteralTarget.ofType PyType.float, LiteralTarget.ofType PyType.int,
         LiteralTarget.ofType PyType.str] "bit_length" idFn false
        initState).2 = some (PyErr.nameCollision PyType.int "bit_length") ∧
      is_hooked (literalRegister sampleNative "forbiddenfruit"
          [LiteralTarget.ofType PyType.float, LiteralTarget.ofType PyType.int,
           LiteralTarget.ofType PyType.str] "bit_length" idFn false
          initState).1 (LiteralTarget.ofType PyType.float) "bit_length" =
        true ∧
      is_hooked (literalRegister sampleNative "forbiddenfruit"
          [LiteralTarget.ofType PyType.float, LiteralTarget.ofType PyType.int,
           LiteralTarget.ofType PyType.str] "bit_length" idFn false
          initState).1 (LiteralTarget.ofType PyType.int) "bit_length" =
        false ∧
      is_hooked (literalRegister sampleNative "forbiddenfruit"
          [LiteralTarget.ofType PyType.float, LiteralTarget.ofType PyType.int,
           LiteralTarget.ofType PyType.str] "bit_length" idFn false
          initState).1 (LiteralTarget.ofType PyType.str) "bit_length" =
        is_hooked initState (LiteralTarget.ofType PyType.str) "bit_length" ∧
      (literalRegister sampleNative "forbiddenfruit"
          [LiteralTarget.ofType PyType.float, LiteralTarget.ofType PyType.int,
           LiteralTarget.ofType PyType.str] "bit_length" idFn false
          initState).1.attrs PyType.int "bit_length" =
        initState.attrs PyType.int "bit_length" ∧
      (literalRegister sampleNative "forbiddenfruit"
          [LiteralTarget.ofType PyType.float, LiteralTarget.ofType PyType.int,
           LiteralTarget.ofType PyType.str] "bit_length" idFn false
          initState).1.attrs PyType.str "bit_length" =
        initState.attrs PyType.str "bit_length" :=
  multi_target_registration_not_transactional sampleNative PyType.float
    PyType.int PyType.str "bit_length" idFn false initState _
    (by decide) (by decide) (by decide) (by decide) (by decide) (by decide)
    rfl

/-- Claim C7: for every allow-listed type, suffix name, transform and
strict flag, the sequence hook; unhook; hook succeeds at every step, and
the state after the second hook — registry, installed descriptors, and
metatype hacks alike — is identical to the state after the first hook. -/
theorem hook_unhook_hook_identical
    (nativeDict : PyType → String → Bool) (t : PyType) (name : String)
    (fn : PyVal → PyVal) (strict : Bool) (s r1 r2 : HookState)
    (_hT : t ∈ ALLOWED_TARGET_TYPES)
    (hreg : name ∉ s.registry t) (hnat : nativeDict t name = false)
    (h1 : r1 = (literalRegister nativeDict "forbiddenfruit"
      [LiteralTarget.ofType t] name fn strict s).1)
    (h2 : r2 = (unliteral (LiteralTarget.ofType t) name "forbiddenfruit"
      r1).1) :
    (literalRegister nativeDict "forbiddenfruit" [LiteralTarget.ofType t]
        name fn strict s).2 = none ∧
      (unliteral (LiteralTarget.ofType t) name "forbiddenfruit" r1).2 =
        none ∧
      literalRegister nativeDict "forbiddenfruit" [LiteralTarget.ofType t]
          name fn strict r2 = (r1, none) := by
  have hsingle := literalRegister_single_ok nativeDict t name fn strict s
    hreg hnat
  rw [hsingle] at h1
  subst h1
  have hu := unliteral_hooked_ok t name
    { registry := fun u =>
        if u = t then s.registry u ++ [name] else s.registry u
      attrs := fun u m =>
        if u = t ∧ m = name then
          some { type := t, fn := fn, name := name, strict := strict }
        else s.attrs u m
      metaAttrs := fun m =>
        if t = PyType.noneType ∧ m = name then some name
        else s.metaAttrs m } (by simp)
  have hreg2 : name ∉ r2.registry t := by
    rw [h2, hu]
    simpa [erase_append_singleton _ _ hreg] using hreg
  have hsingle2 := literalRegister_single_ok nativeDict t name fn strict r2
    hreg2 hnat
  refine ⟨by rw [hsingle], by rw [hu], ?_⟩
  rw [hsingle2]
  suffices hstate :
      ({ registry := fun u =>
           if u = t then r2.registry u ++ [name] else r2.registry u
         attrs := fun u m =>
           if u = t ∧ m = name then
             some { type := t, fn := fn, name := name, strict := strict }
           else r2.attrs u m
         metaAttrs := fun m =>
           if t = PyType.noneType ∧ m = name then some name
           else r2.metaAttrs m } : HookState) =
      { registry := fun u =>
          if u = t then s.registry u ++ [name] else s.registry u
        attrs := fun u m =>
          if u = t ∧ m = name then
            some { type := t, fn := fn, name := name, strict := strict }
          else s.attrs u m
        metaAttrs := fun m =>
          if t = PyType.noneType ∧ m = name then some name
          else s.metaAttrs m } by
    rw [hstate]
  apply HookState.eq_of_fields
  · funext u
    by_cases hcase : u = t
    · subst hcase
      rw [h2, hu]
      simp [erase_append_singleton _ _ hreg]
    · rw [h2, hu]
      simp [hcase]
  · funext u m
    by_cases hcase : u = t ∧ m = name
    · simp [hcase]
    · rw [h2, hu]
      simp only [if_neg hcase]
  · funext m
    by_cases hcase : t = PyType.noneType ∧ m = name
    · simp [hcase]
    · rw [h2, hu]
      simp only [if_neg hcase]

/-- Witness for claim C7 at `t = float`, `name = "m"`, starting from the
pristine state. -/
theorem hook_unhook_hook_identical_witness :
    (literalRegister noNative "forbiddenfruit"
        [LiteralTarget.ofType PyType.float] "m" idFn true initState).2 =
        none ∧
      (unliteral (LiteralTarget.ofType PyType.float) "m" "forbiddenfruit"
        (literalRegister noNative "forbiddenfruit"
          [LiteralTarget.ofType PyType.float] "m" idFn true
          initState).1).2 = none ∧
      literalRegister noNative "forbiddenfruit"
          [LiteralTarget.ofType PyType.float] "m" idFn true
          (unliteral (LiteralTarget.ofType PyType.float) "m" "forbiddenfruit"
            (literalRegister noNative "forbiddenfruit"
              [LiteralTarget.ofType PyType.float] "m" idFn true
              initState).1).1 =
        ((literalRegister noNative "forbiddenfruit"
          [LiteralTarget.ofType PyType.float] "m" idFn true initState).1,
         none) :=
  hook_unhook_hook_identical noNative PyType.float "m" idFn true initState
    _ _ (by decide) (by decide) (by decide) rfl rfl

end CustomLiterals
